import Mathlib

/-!
# Verification of `controle-arcondicionado-lgthinq`

Shallow embedding of the Go sources of the LG ThinQ energy-saver agent:

* `cmd/economizador/main.go` (two variants present in the repository): the
  MQTT message handler built by `createMessageHandler`, one variant enforcing
  a minimum temperature (`minTemperature`), one enforcing a fixed target
  (`targetTemperature = 24`);
* `internal/config/config.go`: `Load` and the `MIN_TEMPERATURE` parsing and
  clamping logic;
* `internal/thinq/client.go`: the HTTP status handling of `registerClient`,
  `SubscribeToDeviceEvents`, `SubscribeToPushNotifications`, and the identity
  acquisition pipeline `generateCSR` / `GetMQTTCredentials`.

Modelling conventions:

* Go `float64` values decoded from JSON are modelled as exact rationals `ℚ`
  (JSON cannot encode NaN or infinities, and the only operation performed on
  the value is the Go conversion `int(x)`, truncation toward zero, modelled
  by `Int.tdiv` on the rational's numerator and denominator).
* Go `map[string]interface{}` values produced by `json.Unmarshal` are
  modelled as association lists with unique keys (`List (String × JSON)`);
  `jlookup` is Go map indexing.
* The Go `map[string]string` device-alias map is modelled as a total
  function `String → String`; Go map indexing returns the zero value `""`
  for an absent key, which the function model reproduces directly.
* Network effects are modelled by passing the observed HTTP status code and
  (parsed) response body as explicit arguments; `json.Unmarshal` failure of
  a response body is the `none` case of an `Option` argument.
* The message handler's side effects (outbound `SetTemperature` calls) are
  collected in a list, and the state it closes over (alias map, policy
  value) is threaded through explicitly so that frame properties are
  expressible.
-/

/-! ## JSON values (results of Go `json.Unmarshal` into `interface{}`) -/

inductive JSON where
  | null : JSON
  | bool : Bool → JSON
  | num : ℚ → JSON
  | str : String → JSON
  | arr : List JSON → JSON
  | obj : List (String × JSON) → JSON

/-- Go type assertion `v.(string)`. -/
def JSON.asString : JSON → Option String
  | .str s => some s
  | _ => none

/-- Go type assertion `v.(float64)` (JSON numbers decode to `float64`). -/
def JSON.asNum : JSON → Option ℚ
  | .num q => some q
  | _ => none

/-- Go type assertion `v.(map[string]interface{})`. -/
def JSON.asObj : JSON → Option (List (String × JSON))
  | .obj fields => some fields
  | _ => none

/-- Go map indexing `event[key]` on a decoded JSON object (keys are unique). -/
def jlookup (fields : List (String × JSON)) (key : String) : Option JSON :=
  List.lookup key fields

/-- `event[key].(string)`: field access followed by a string type assertion. -/
def getString (fields : List (String × JSON)) (key : String) : Option String :=
  (jlookup fields key).bind JSON.asString

/-- `event[key].(float64)`: field access followed by a number type assertion. -/
def getNum (fields : List (String × JSON)) (key : String) : Option ℚ :=
  (jlookup fields key).bind JSON.asNum

/-- `event[key].(map[string]interface{})`: field access followed by an
object type assertion. -/
def getObj (fields : List (String × JSON)) (key : String) :
    Option (List (String × JSON)) :=
  (jlookup fields key).bind JSON.asObj

/-- Go conversion `int(x)` applied to a JSON-decoded `float64`, modelled on
the exact rational: truncation toward zero (`Int.tdiv` is T-division). -/
def goTrunc (q : ℚ) : ℤ :=
  Int.tdiv q.num q.den

/-! ## The message handler (`createMessageHandler` in both `main.go` variants) -/

/-- One outbound `client.SetTemperature(deviceID, temperature)` control call. -/
structure Command where
  deviceId : String
  temperature : ℤ
deriving DecidableEq

/-- `main.go`, lines 198–201: look the device up in the alias map, falling
back to the raw identifier when the map yields the zero value `""`. -/
def resolveAlias (deviceAliases : String → String) (deviceID : String) : String :=
  let a := deviceAliases deviceID
  if a = "" then deviceID else a

/-- `main.go`, lines 204–218: extract `event["report"]["temperature"]
["targetTemperature"]` as a `float64`; any missing step aborts the handler. -/
def reportedTargetTemperature (event : List (String × JSON)) : Option ℚ :=
  match getObj event "report" with
  | none => none
  | some report =>
    match getObj report "temperature" with
    | none => none
    | some temperature => getNum temperature "targetTemperature"

/-- Result of one invocation of the minimum-threshold handler: the outbound
control calls it made, the friendly name it resolved (if it got that far),
and the state it closed over, threaded through to make frame properties
expressible. -/
structure MinHandlerResult where
  calls : List Command
  resolvedName : Option String
  deviceAliases : String → String
  minTemperature : ℤ

/-- The message handler returned by `createMessageHandler` in the
minimum-threshold variant of `main.go`: discard the message unless it is a
parsed JSON object whose `pushType` is `"DEVICE_STATUS"`, whose `deviceId`
is a string and whose report carries a `targetTemperature` number; then
issue one `SetTemperature(deviceID, minTemperature)` call exactly when
`int(targetTemp) < minTemperature`. A payload that `json.Unmarshal` rejects
is the `none` case. -/
def handleMessageMin (deviceAliases : String → String) (minTemperature : ℤ)
    (payload : Option (List (String × JSON))) : MinHandlerResult :=
  match payload with
  | none => ⟨[], none, deviceAliases, minTemperature⟩
  | some event =>
    match getString event "pushType" with
    | none => ⟨[], none, deviceAliases, minTemperature⟩
    | some pushType =>
      if pushType ≠ "DEVICE_STATUS" then ⟨[], none, deviceAliases, minTemperature⟩
      else
        match getString event "deviceId" with
        | none => ⟨[], none, deviceAliases, minTemperature⟩
        | some deviceID =>
          let deviceName := resolveAlias deviceAliases deviceID
          match reportedTargetTemperature event with
          | none => ⟨[], some deviceName, deviceAliases, minTemperature⟩
          | some targetTemp =>
            if minTemperature ≤ goTrunc targetTemp then
              ⟨[], some deviceName, deviceAliases, minTemperature⟩
            else
              ⟨[⟨deviceID, minTemperature⟩], some deviceName, deviceAliases,
                minTemperature⟩

/-- Result of one invocation of the fixed-target handler. -/
structure FixedHandlerResult where
  calls : List Command
  resolvedName : Option String
  deviceAliases : String → String
  targetTemperature : ℤ

/-- The package-level constant `targetTemperature = 24` of the fixed-target
variant of `main.go`. -/
def targetTemperatureConst : ℤ := 24

/-- The message handler returned by `createMessageHandler` in the
fixed-target variant of `main.go`: same extraction steps, then issue one
`SetTemperature(deviceID, targetTemperature)` call exactly when
`int(targetTemp) ≠ targetTemperature`. -/
def handleMessageFixed (deviceAliases : String → String) (targetTemperature : ℤ)
    (payload : Option (List (String × JSON))) : FixedHandlerResult :=
  match payload with
  | none => ⟨[], none, deviceAliases, targetTemperature⟩
  | some event =>
    match getString event "pushType" with
    | none => ⟨[], none, deviceAliases, targetTemperature⟩
    | some pushType =>
      if pushType ≠ "DEVICE_STATUS" then ⟨[], none, deviceAliases, targetTemperature⟩
      else
        match getString event "deviceId" with
        | none => ⟨[], none, deviceAliases, targetTemperature⟩
        | some deviceID =>
          let deviceName := resolveAlias deviceAliases deviceID
          match reportedTargetTemperature event with
          | none => ⟨[], some deviceName, deviceAliases, targetTemperature⟩
          | some targetTemp =>
            if goTrunc targetTemp = targetTemperature then
              ⟨[], some deviceName, deviceAliases, targetTemperature⟩
            else
              ⟨[⟨deviceID, targetTemperature⟩], some deviceName, deviceAliases,
                targetTemperature⟩

/-- A canonical well-formed device-status telemetry event, as in the spec's
scenario `{pushType: DEVICE_STATUS, deviceId: D1,
report:{temperature:{targetTemperature:18}}}`. -/
def mkStatusEvent (deviceID : String) (t : ℚ) : List (String × JSON) :=
  [("pushType", JSON.str "DEVICE_STATUS"),
   ("deviceId", JSON.str deviceID),
   ("report", JSON.obj [("temperature",
      JSON.obj [("targetTemperature", JSON.num t)])])]

/-! ## Configuration loading (`internal/config/config.go`) -/

/-- Decimal digit run of `strconv.Atoi`: all characters must be digits and
there must be at least one. -/
def parseDecimalDigits (cs : List Char) : Option ℕ :=
  match cs with
  | [] => none
  | _ =>
    cs.foldl (fun acc c =>
      match acc with
      | none => none
      | some n => if c.isDigit then some (n * 10 + (c.toNat - '0'.toNat)) else none)
      (some 0)

/-- Go `strconv.Atoi`: optional single leading sign, then one or more
decimal digits, rejecting anything else; values outside the 64-bit `int`
range are an error (`ErrRange`). -/
def goAtoi (s : String) : Option ℤ :=
  let signed : Option ℤ :=
    match s.toList with
    | '+' :: rest => (parseDecimalDigits rest).map fun n => (n : ℤ)
    | '-' :: rest => (parseDecimalDigits rest).map fun n => -(n : ℤ)
    | l => (parseDecimalDigits l).map fun n => (n : ℤ)
  match signed with
  | none => none
  | some v => if v < -(2 ^ 63) ∨ 2 ^ 63 - 1 < v then none else some v

/-- The configuration struct built by `config.Load`. -/
structure Config where
  ThinQPAT : String
  CountryCode : String
  ClientID : String
  MinTemperature : ℤ

/-- The `MIN_TEMPERATURE` logic of `config.Load`: default 21, overridden by
a parseable environment value, then clamped up to 21. -/
def loadMinTemperature (envValue : String) : ℤ :=
  let minTemp : ℤ :=
    if envValue ≠ "" then
      match goAtoi envValue with
      | some temp => temp
      | none => 21
    else 21
  if minTemp < 21 then 21 else minTemp

/-- `config.Load`. Effects are passed explicitly: `dotenvOk` is whether
`godotenv.Load` succeeded, `env` is `os.Getenv` (returning `""` for unset
variables), and `generatedClientID` is the value `generateClientID` would
produce if called. -/
def Load (dotenvOk : Bool) (env : String → String) (generatedClientID : String) :
    Except String Config :=
  if dotenvOk = false then Except.error "error loading .env file"
  else
    let minTemp := loadMinTemperature (env "MIN_TEMPERATURE")
    if env "THINQ_PAT" = "" then Except.error "THINQ_PAT is required"
    else Except.ok
      { ThinQPAT := env "THINQ_PAT"
        CountryCode :=
          if env "THINQ_COUNTRY_CODE" = "" then "BR" else env "THINQ_COUNTRY_CODE"
        ClientID :=
          if env "THINQ_CLIENT_ID" = "" then generatedClientID
          else env "THINQ_CLIENT_ID"
        MinTemperature := minTemp }

/-! ## ThinQ client HTTP outcome handling (`internal/thinq/client.go`) -/

/-- The embedded error object of `ErrorResponseNested`
(`internal/thinq/models.go`). -/
structure NestedErrorBody where
  Message : String
  Code : String

/-- `registerClient`, status handling (client.go lines 251–257): accept
both 200 and 409 (already registered). -/
def registerClient (statusCode : ℕ) (body : String) : Except String Unit :=
  if statusCode ≠ 200 ∧ statusCode ≠ 409 then
    Except.error ("API request failed with status " ++ toString statusCode ++
      ": " ++ body)
  else Except.ok ()

/-- `SubscribeToDeviceEvents`, status handling (client.go lines 331–336):
accept 200 (success) or 409 (already subscribed). -/
def SubscribeToDeviceEvents (statusCode : ℕ) (body : String) : Except String Unit :=
  if statusCode ≠ 200 ∧ statusCode ≠ 409 then
    Except.error ("API request failed with status " ++ toString statusCode ++
      ": " ++ body)
  else Except.ok ()

/-- `SubscribeToPushNotifications`, status handling (client.go lines
361–377): accept 200, 409, or 404; on 404 the body is unmarshalled as a
nested error response (`parsedBody = none` when `json.Unmarshal` fails, in
which case the Go code skips the check and returns `nil`) and any code other
than `"1207"` (already subscribed push) is an error. -/
def SubscribeToPushNotifications (statusCode : ℕ) (rawBody : String)
    (parsedBody : Option NestedErrorBody) : Except String Unit :=
  if statusCode ≠ 200 ∧ statusCode ≠ 409 ∧ statusCode ≠ 404 then
    Except.error ("API request failed with status " ++ toString statusCode ++
      ": " ++ rawBody)
  else
    if statusCode = 404 then
      match parsedBody with
      | some errResp =>
        if errResp.Code ≠ "1207" then
          Except.error ("API error (code: " ++ errResp.Code ++ "): " ++
            errResp.Message)
        else Except.ok ()
      | none => Except.ok ()
    else Except.ok ()

/-! ## Identity acquisition (`generateCSR`, `GetMQTTCredentials`) -/

/-- An RSA private key, abstract: the key material is opaque to the claims,
only its identity matters (freshness is modelled by passing the key the
random generator produced as an explicit argument). -/
structure RSAPrivateKey where
  keyMaterial : ℕ
deriving DecidableEq

/-- `pkix.Name` restricted to the field the source sets. -/
structure PkixName where
  CommonName : String
deriving DecidableEq

/-- The `x509.CertificateRequest` template built by `generateCSR`. -/
structure CertificateRequestTemplate where
  Subject : PkixName
deriving DecidableEq

/-- A PEM-encoded blob, symbolic: the source only ever forwards these
strings, so the encoding is kept abstract but injective by construction. -/
inductive PEMData where
  | rsaPrivateKey (key : RSAPrivateKey)
  | certificateRequest (template : CertificateRequestTemplate) (signer : RSAPrivateKey)
deriving DecidableEq

/-- `generateCSR` (client.go lines 260–294): build a CSR template whose
subject common name is the fixed vendor value `"lg_thinq"`, sign it with the
freshly generated key, and return the private-key PEM and the CSR PEM (in
that order). The key produced by `rsa.GenerateKey` is the explicit
`privateKey` argument; `clientID` is accepted but, as in the source, does
not influence the CSR. -/
def generateCSR (privateKey : RSAPrivateKey) (_clientID : String) :
    PEMData × PEMData :=
  let template : CertificateRequestTemplate :=
    { Subject := { CommonName := "lg_thinq" } }
  (PEMData.rsaPrivateKey privateKey,
   PEMData.certificateRequest template privateKey)

/-- `CertificateInfo` (`internal/thinq/mqtt_models.go`). -/
structure CertificateInfo where
  CertificatePem : String
  Subscriptions : List String
  Publications : List String

/-- `CertificateResponseData` (`internal/thinq/mqtt_models.go`). -/
structure CertificateResponseData where
  ResultCode : String
  Result : CertificateInfo

/-- `CertificateResponse` (`internal/thinq/mqtt_models.go`). -/
structure CertificateResponse where
  MessageID : String
  Timestamp : String
  Response : CertificateResponseData

/-- `MQTTCredentials` (`internal/thinq/client.go`): the certificate string
returned by the backend, the locally generated private-key PEM, and the
subscription topic list from the certificate exchange. -/
structure MQTTCredentials where
  Certificate : String
  PrivateKey : PEMData
  Subscriptions : List String

/-- `GetMQTTCredentials` (client.go lines 154–209): register the client,
generate the key pair and CSR, exchange the CSR for a certificate, and
return the credentials. The network effects are explicit arguments: the
registration exchange's status and body, the fresh key, and the certificate
exchange's status and (parsed) body. -/
def GetMQTTCredentials (registerStatus : ℕ) (registerBody : String)
    (freshKey : RSAPrivateKey) (clientID : String)
    (certStatus : ℕ) (certRawBody : String)
    (certParsedBody : Option CertificateResponse) : Except String MQTTCredentials :=
  match registerClient registerStatus registerBody with
  | Except.error e => Except.error ("failed to register client: " ++ e)
  | Except.ok _ =>
    let generated := generateCSR freshKey clientID
    if certStatus ≠ 200 then
      Except.error ("API request failed with status " ++ toString certStatus ++
        ": " ++ certRawBody)
    else
      match certParsedBody with
      | none => Except.error "failed to parse response"
      | some certResp =>
        Except.ok
          { Certificate := certResp.Response.Result.CertificatePem
            PrivateKey := generated.1
            Subscriptions := certResp.Response.Result.Subscriptions }

/-! ## Concrete inputs used by witnesses -/

/-- Environment with a below-floor `MIN_TEMPERATURE`, for the C5 witness. -/
def envLow : String → String := fun k =>
  if k = "MIN_TEMPERATURE" then "18" else if k = "THINQ_PAT" then "token" else ""

/-- Environment with an unparseable `MIN_TEMPERATURE`, for the C10 witness. -/
def envBad : String → String := fun k =>
  if k = "MIN_TEMPERATURE" then "abc" else if k = "THINQ_PAT" then "token" else ""

/-- Concrete certificate-exchange response for the C9 witness. -/
def certRespW : CertificateResponse :=
  { MessageID := "mid", Timestamp := "ts"
    Response :=
      { ResultCode := "OK"
        Result :=
          { CertificatePem := "CERTPEM", Subscriptions := ["t1", "t2"]
            Publications := [] } } }

/-! ## Truncation lemmas -/

/-- `goTrunc` is Go's `int(x)`: truncation toward zero (floor for
nonnegative arguments, ceiling for negative ones). -/
theorem goTrunc_eq_floor_or_ceil (q : ℚ) :
    goTrunc q = if 0 ≤ q then ⌊q⌋ else ⌈q⌉ := by
  unfold goTrunc
  split_ifs with h0
  · have hn : 0 ≤ q.num := Rat.num_nonneg.mpr h0
    obtain ⟨m, hm⟩ := Int.eq_ofNat_of_zero_le hn
    rw [Rat.floor_def, hm]
    rfl
  · have hq : q < 0 := not_le.mp h0
    have hn : q.num < 0 := by
      rcases lt_or_le q.num 0 with h | h
      · exact h
      · exact absurd (Rat.num_nonneg.mp h) h0
    obtain ⟨m, hm⟩ := Int.eq_negSucc_of_lt_zero hn
    have : ⌈q⌉ = -⌊-q⌋ := by rw [← neg_neg q, Int.ceil_neg, neg_neg]
    rw [this, Rat.floor_def, Rat.neg_num, Rat.neg_den, hm]
    rfl

/-- For a positive integer bound `m`, comparing the truncation against `m`
agrees with comparing the raw rational against `m`. -/
theorem goTrunc_lt_iff (t : ℚ) (m : ℤ) (hm : 0 < m) :
    goTrunc t < m ↔ t < (m : ℚ) := by
  rw [goTrunc_eq_floor_or_ceil]
  split_ifs with h0
  · exact Int.floor_lt
  · have ht : t < 0 := not_le.mp h0
    have h1 : ⌈t⌉ ≤ 0 := Int.ceil_le.mpr (by exact_mod_cast ht.le)
    have h2 : t < (m : ℚ) := lt_of_lt_of_le ht (by exact_mod_cast hm.le)
    exact iff_of_true (lt_of_le_of_lt h1 hm) h2

/-! ## Claim theorems -/

/-- C1. Under the MinimumThreshold policy with floor `m` (which configuration
guarantees is at least 21), for every telemetry event whose report carries a
present target-temperature value `t`, the handler issues a `SetTemperature`
control command if and only if `t < m`, and the commanded value is always
exactly `m`. -/
theorem min_threshold_correction (deviceAliases : String → String) (m : ℤ)
    (event : List (String × JSON)) (deviceID : String) (t : ℚ)
    (hm : 21 ≤ m)
    (hpush : getString event "pushType" = some "DEVICE_STATUS")
    (hid : getString event "deviceId" = some deviceID)
    (ht : reportedTargetTemperature event = some t) :
    (handleMessageMin deviceAliases m (some event)).calls =
      if t < (m : ℚ) then [⟨deviceID, m⟩] else [] := by
  have hlt := goTrunc_lt_iff t m (lt_of_lt_of_le (by norm_num) hm)
  simp only [handleMessageMin, hpush, hid, ht]
  norm_num
  rcases lt_or_le t (m : ℚ) with h | h
  · rw [if_pos h, if_neg (not_le.mpr (hlt.mpr h))]
  · have hgt : ¬ goTrunc t < m := by rw [hlt]; exact not_lt.mpr h
    rw [if_neg (not_lt.mpr h), if_pos (not_lt.mp hgt)]

/-- C1 witness: the spec's scenario (MinimumThreshold 21, reported 18)
issues exactly one control call setting the device to 21. -/
theorem min_threshold_correction_witness :
    (handleMessageMin (fun _ => "") 21 (some (mkStatusEvent "D1" 18))).calls =
      [⟨"D1", 21⟩] := by
  rw [min_threshold_correction (fun _ => "") 21 (mkStatusEvent "D1" 18) "D1" 18
    (by decide) (by decide) (by decide) (by decide)]
  norm_num

/-- C2 counterexample: the claim "a command is issued iff `t ≠ f`" fails on
the raw reported value. With FixedTarget 24 and a reported value of 24.5
(= 49/2), the raw value differs from the target yet the handler issues no
control command, because the comparison is made on the truncated integer. -/
theorem fixed_target_raw_iff_counterexample :
    ((⟨49, 2, by decide, by decide⟩ : ℚ) ≠ ((24 : ℤ) : ℚ)) ∧
    (handleMessageFixed (fun _ => "") targetTemperatureConst
        (some (mkStatusEvent "D1" ⟨49, 2, by decide, by decide⟩))).calls = [] := by
  constructor
  · intro h
    have : (⟨49, 2, by decide, by decide⟩ : ℚ).num = ((24 : ℤ) : ℚ).num := by rw [h]
    revert this
    decide
  · decide

/-- C2 (amended). Under the FixedTarget policy with value `f`, for every
telemetry event whose report carries a present target-temperature value `t`,
the handler issues a `SetTemperature` control command if and only if the
truncation of `t` toward zero differs from `f`, and the commanded value is
always exactly `f`. -/
theorem fixed_target_correction (deviceAliases : String → String) (f : ℤ)
    (event : List (String × JSON)) (deviceID : String) (t : ℚ)
    (hpush : getString event "pushType" = some "DEVICE_STATUS")
    (hid : getString event "deviceId" = some deviceID)
    (ht : reportedTargetTemperature event = some t) :
    (handleMessageFixed deviceAliases f (some event)).calls =
      if goTrunc t = f then [] else [⟨deviceID, f⟩] := by
  simp only [handleMessageFixed, hpush, hid, ht]
  norm_num
  by_cases h : goTrunc t = f
  · rw [if_pos h, if_pos h]
  · rw [if_neg h, if_neg h]

/-- C2 witness: FixedTarget 24 with a reported value of 25 issues exactly
one control call setting the device to 24. -/
theorem fixed_target_correction_witness :
    (handleMessageFixed (fun _ => "") targetTemperatureConst
        (some (mkStatusEvent "D1" 25))).calls = [⟨"D1", 24⟩] := by
  rw [fixed_target_correction (fun _ => "") targetTemperatureConst
    (mkStatusEvent "D1" 25) "D1" 25 (by decide) (by decide) (by decide)]
  decide

/-- Inversion for the minimum-threshold handler: a nonempty list of control
calls forces a parsed device-status event with a present target temperature
whose truncation is below the minimum. -/
theorem handleMin_calls_sound (deviceAliases : String → String) (m : ℤ)
    (payload : Option (List (String × JSON)))
    (h : (handleMessageMin deviceAliases m payload).calls ≠ []) :
    ∃ event t, payload = some event ∧
      getString event "pushType" = some "DEVICE_STATUS" ∧
      (∃ id, getString event "deviceId" = some id) ∧
      reportedTargetTemperature event = some t ∧
      goTrunc t < m := by
  cases payload with
  | none => simp [handleMessageMin] at h
  | some event =>
    rcases hp : getString event "pushType" with _ | pushType
    · simp [handleMessageMin, hp] at h
    · by_cases hps : pushType = "DEVICE_STATUS"
      · subst hps
        rcases hd : getString event "deviceId" with _ | deviceID
        · simp [handleMessageMin, hp, hd] at h
        · rcases htt : reportedTargetTemperature event with _ | t
          · simp [handleMessageMin, hp, hd, htt] at h
          · by_cases hcmp : m ≤ goTrunc t
            · simp [handleMessageMin, hp, hd, htt, hcmp] at h
            · exact ⟨event, t, rfl, hp, ⟨deviceID, hd⟩, htt, not_le.mp hcmp⟩
      · simp [handleMessageMin, hp, hps] at h

/-- Inversion for the fixed-target handler: a nonempty list of control calls
forces a parsed device-status event with a present target temperature whose
truncation differs from the target. -/
theorem handleFixed_calls_sound (deviceAliases : String → String) (f : ℤ)
    (payload : Option (List (String × JSON)))
    (h : (handleMessageFixed deviceAliases f payload).calls ≠ []) :
    ∃ event t, payload = some event ∧
      getString event "pushType" = some "DEVICE_STATUS" ∧
      (∃ id, getString event "deviceId" = some id) ∧
      reportedTargetTemperature event = some t ∧
      goTrunc t ≠ f := by
  cases payload with
  | none => simp [handleMessageFixed] at h
  | some event =>
    rcases hp : getString event "pushType" with _ | pushType
    · simp [handleMessageFixed, hp] at h
    · by_cases hps : pushType = "DEVICE_STATUS"
      · subst hps
        rcases hd : getString event "deviceId" with _ | deviceID
        · simp [handleMessageFixed, hp, hd] at h
        · rcases htt : reportedTargetTemperature event with _ | t
          · simp [handleMessageFixed, hp, hd, htt] at h
          · by_cases hcmp : goTrunc t = f
            · simp [handleMessageFixed, hp, hd, htt, hcmp] at h
            · exact ⟨event, t, rfl, hp, ⟨deviceID, hd⟩, htt, hcmp⟩
      · simp [handleMessageFixed, hp, hps] at h

/-- C3. For every inbound message and either handler variant, a control
command is issued only when the payload parses as a JSON object, its
`pushType` equals `"DEVICE_STATUS"`, the report carries a present
target-temperature value, and the active policy predicate (below-minimum,
respectively differs-from-target, on the truncated value) holds; in every
other case no control command is issued. -/
theorem command_only_for_qualified_events (deviceAliases : String → String)
    (m f : ℤ) (payload : Option (List (String × JSON)))
    (h : (handleMessageMin deviceAliases m payload).calls ≠ [] ∨
         (handleMessageFixed deviceAliases f payload).calls ≠ []) :
    ∃ event t, payload = some event ∧
      getString event "pushType" = some "DEVICE_STATUS" ∧
      reportedTargetTemperature event = some t ∧
      ((handleMessageMin deviceAliases m payload).calls ≠ [] → goTrunc t < m) ∧
      ((handleMessageFixed deviceAliases f payload).calls ≠ [] → goTrunc t ≠ f) := by
  rcases h with h | h
  · obtain ⟨event, t, rfl, hp, _, htt, hlt⟩ :=
      handleMin_calls_sound deviceAliases m _ h
    refine ⟨event, t, rfl, hp, htt, fun _ => hlt, fun hf => ?_⟩
    obtain ⟨event', t', he, _, _, htt', hne⟩ :=
      handleFixed_calls_sound deviceAliases f _ hf
    obtain rfl : event = event' := by injection he
    rw [htt] at htt'
    obtain rfl : t = t' := by injection htt'
    exact hne
  · obtain ⟨event, t, rfl, hp, _, htt, hne⟩ :=
      handleFixed_calls_sound deviceAliases f _ h
    refine ⟨event, t, rfl, hp, htt, fun hm => ?_, fun _ => hne⟩
    obtain ⟨event', t', he, _, _, htt', hlt⟩ :=
      handleMin_calls_sound deviceAliases m _ hm
    obtain rfl : event = event' := by injection he
    rw [htt] at htt'
    obtain rfl : t = t' := by injection htt'
    exact hlt

/-- C3 witness: at the spec's scenario event (reported 18, MinimumThreshold
21, FixedTarget 24) both handlers command, and the qualifying conditions are
exhibited. -/
theorem command_only_for_qualified_events_witness :
    ∃ event t, (some (mkStatusEvent "D1" 18) = some event) ∧
      getString event "pushType" = some "DEVICE_STATUS" ∧
      reportedTargetTemperature event = some t ∧
      ((handleMessageMin (fun _ => "") 21 (some (mkStatusEvent "D1" 18))).calls ≠ []
        → goTrunc t < 21) ∧
      ((handleMessageFixed (fun _ => "") 24 (some (mkStatusEvent "D1" 18))).calls ≠ []
        → goTrunc t ≠ 24) :=
  command_only_for_qualified_events (fun _ => "") 21 24
    (some (mkStatusEvent "D1" 18)) (Or.inl (by decide))

/-- Evaluation of the minimum-threshold handler on a canonical device-status
event (definitional). -/
theorem handleMin_eval (deviceAliases : String → String) (m : ℤ)
    (deviceID : String) (t : ℚ) :
    handleMessageMin deviceAliases m (some (mkStatusEvent deviceID t)) =
      if m ≤ goTrunc t then
        ⟨[], some (resolveAlias deviceAliases deviceID), deviceAliases, m⟩
      else
        ⟨[⟨deviceID, m⟩], some (resolveAlias deviceAliases deviceID),
          deviceAliases, m⟩ := rfl

/-- Evaluation of the fixed-target handler on a canonical device-status
event (definitional). -/
theorem handleFixed_eval (deviceAliases : String → String) (f : ℤ)
    (deviceID : String) (t : ℚ) :
    handleMessageFixed deviceAliases f (some (mkStatusEvent deviceID t)) =
      if goTrunc t = f then
        ⟨[], some (resolveAlias deviceAliases deviceID), deviceAliases, f⟩
      else
        ⟨[⟨deviceID, f⟩], some (resolveAlias deviceAliases deviceID),
          deviceAliases, f⟩ := rfl

/-- Length bound for the minimum-threshold handler's outbound calls. -/
theorem handleMin_calls_length (deviceAliases : String → String) (m : ℤ)
    (payload : Option (List (String × JSON))) :
    (handleMessageMin deviceAliases m payload).calls.length ≤ 1 := by
  unfold handleMessageMin
  repeat' split
  all_goals simp

/-- The minimum-threshold handler returns its captured state unchanged. -/
theorem handleMin_state (deviceAliases : String → String) (m : ℤ)
    (payload : Option (List (String × JSON))) :
    (handleMessageMin deviceAliases m payload).deviceAliases = deviceAliases ∧
    (handleMessageMin deviceAliases m payload).minTemperature = m := by
  unfold handleMessageMin
  repeat' split
  all_goals simp

/-- Length bound for the fixed-target handler's outbound calls. -/
theorem handleFixed_calls_length (deviceAliases : String → String) (f : ℤ)
    (payload : Option (List (String × JSON))) :
    (handleMessageFixed deviceAliases f payload).calls.length ≤ 1 := by
  unfold handleMessageFixed
  repeat' split
  all_goals simp

/-- The fixed-target handler returns its captured state unchanged. -/
theorem handleFixed_state (deviceAliases : String → String) (f : ℤ)
    (payload : Option (List (String × JSON))) :
    (handleMessageFixed deviceAliases f payload).deviceAliases = deviceAliases ∧
    (handleMessageFixed deviceAliases f payload).targetTemperature = f := by
  unfold handleMessageFixed
  repeat' split
  all_goals simp

/-- C7. For every single handler invocation (either variant), at most one
outbound `SetTemperature` control call is made, and the handler leaves the
device alias lookup table and the configured policy value unchanged. -/
theorem handler_at_most_one_call_and_frame (deviceAliases : String → String)
    (m f : ℤ) (payload : Option (List (String × JSON))) :
    (handleMessageMin deviceAliases m payload).calls.length ≤ 1 ∧
    (handleMessageMin deviceAliases m payload).deviceAliases = deviceAliases ∧
    (handleMessageMin deviceAliases m payload).minTemperature = m ∧
    (handleMessageFixed deviceAliases f payload).calls.length ≤ 1 ∧
    (handleMessageFixed deviceAliases f payload).deviceAliases = deviceAliases ∧
    (handleMessageFixed deviceAliases f payload).targetTemperature = f :=
  ⟨handleMin_calls_length deviceAliases m payload,
   (handleMin_state deviceAliases m payload).1,
   (handleMin_state deviceAliases m payload).2,
   handleFixed_calls_length deviceAliases f payload,
   (handleFixed_state deviceAliases f payload).1,
   (handleFixed_state deviceAliases f payload).2⟩

/-- C8. For a telemetry event whose device id is absent from the alias table
(the Go map yields the zero value `""`), friendly-name resolution falls back
to the raw device id, and the control calls issued by either handler are the
same as with any other alias table (in particular one that knows the
device). -/
theorem unknown_device_fallback (deviceAliases deviceAliases' : String → String)
    (m f : ℤ) (deviceID : String) (t : ℚ)
    (h : deviceAliases deviceID = "") :
    resolveAlias deviceAliases deviceID = deviceID ∧
    (handleMessageMin deviceAliases m (some (mkStatusEvent deviceID t))).resolvedName
      = some deviceID ∧
    (handleMessageMin deviceAliases m (some (mkStatusEvent deviceID t))).calls
      = (handleMessageMin deviceAliases' m (some (mkStatusEvent deviceID t))).calls ∧
    (handleMessageFixed deviceAliases f (some (mkStatusEvent deviceID t))).calls
      = (handleMessageFixed deviceAliases' f (some (mkStatusEvent deviceID t))).calls := by
  have hra : resolveAlias deviceAliases deviceID = deviceID := by
    simp [resolveAlias, h]
  refine ⟨hra, ?_, ?_, ?_⟩
  · rw [handleMin_eval]
    split <;> simp [hra]
  · rw [handleMin_eval, handleMin_eval]
    split <;> rfl
  · rw [handleFixed_eval, handleFixed_eval]
    split <;> rfl

/-- C8 witness: concrete unknown device `D9` with an empty alias table falls
back to the raw id and issues the same calls as with a table that knows
`D9`. -/
theorem unknown_device_fallback_witness :
    resolveAlias (fun _ => "") "D9" = "D9" ∧
    (handleMessageMin (fun _ => "") 21 (some (mkStatusEvent "D9" 18))).resolvedName
      = some "D9" ∧
    (handleMessageMin (fun _ => "") 21 (some (mkStatusEvent "D9" 18))).calls
      = (handleMessageMin (fun _ => "Living Room") 21
          (some (mkStatusEvent "D9" 18))).calls ∧
    (handleMessageFixed (fun _ => "") 24 (some (mkStatusEvent "D9" 18))).calls
      = (handleMessageFixed (fun _ => "Living Room") 24
          (some (mkStatusEvent "D9" 18))).calls :=
  unknown_device_fallback (fun _ => "") (fun _ => "Living Room") 21 24 "D9" 18 rfl

/-- Truncation of an integer-valued rational is the integer itself. -/
theorem goTrunc_intCast (n : ℤ) : goTrunc (n : ℚ) = n := by
  rw [goTrunc_eq_floor_or_ceil]
  split_ifs with h
  · exact Int.floor_intCast n
  · exact Int.ceil_intCast n

/-- C6. For every reported target-temperature value, the handler truncates it
toward zero to an integer degree before evaluating the policy predicate:
`goTrunc` is floor for nonnegative and ceiling for negative values, and both
handlers issue exactly the same control calls on the raw value as on its
truncation — both the below-minimum and the equals-fixed-target comparison
are made on the truncated integer. -/
theorem truncation_before_predicate (deviceAliases : String → String)
    (m f : ℤ) (deviceID : String) (t : ℚ) :
    goTrunc t = (if 0 ≤ t then ⌊t⌋ else ⌈t⌉) ∧
    (handleMessageMin deviceAliases m (some (mkStatusEvent deviceID t))).calls =
      (handleMessageMin deviceAliases m
        (some (mkStatusEvent deviceID ((goTrunc t : ℤ) : ℚ)))).calls ∧
    (handleMessageFixed deviceAliases f (some (mkStatusEvent deviceID t))).calls =
      (handleMessageFixed deviceAliases f
        (some (mkStatusEvent deviceID ((goTrunc t : ℤ) : ℚ)))).calls := by
  refine ⟨goTrunc_eq_floor_or_ceil t, ?_, ?_⟩
  · rw [handleMin_eval, handleMin_eval, goTrunc_intCast]
  · rw [handleFixed_eval, handleFixed_eval, goTrunc_intCast]

/-- C4 counterexample: on a "not found" (404) push-subscription response
whose body does not unmarshal as a nested error response, the Go code skips
the check entirely and reports success, although no embedded error code
identifies the already-subscribed condition. -/
theorem push_conflict_handling_counterexample :
    SubscribeToPushNotifications 404 "not-json" none = Except.ok () ∧
    Option.map NestedErrorBody.Code (none : Option NestedErrorBody) ≠ some "1207" :=
  ⟨rfl, by decide⟩

/-- C4 (amended). Client registration and event subscription return success
on a backend conflict status (409); push subscription returns success on a
"not found" (404) status exactly when the parsed body's embedded error code
is `"1207"` (already subscribed) — any other embedded code is an error — or
when the body fails to parse as a nested error response, in which case the
check is skipped and success is returned. -/
theorem idempotent_conflict_handling (rawBody : String) (e : NestedErrorBody) :
    registerClient 409 rawBody = Except.ok () ∧
    SubscribeToDeviceEvents 409 rawBody = Except.ok () ∧
    (SubscribeToPushNotifications 404 rawBody (some e) = Except.ok () ↔
      e.Code = "1207") ∧
    SubscribeToPushNotifications 404 rawBody none = Except.ok () := by
  refine ⟨by simp [registerClient], by simp [SubscribeToDeviceEvents], ?_, rfl⟩
  by_cases h : e.Code = "1207"
  · simp [SubscribeToPushNotifications, h]
  · simp [SubscribeToPushNotifications, h]

/-- C5. If the `MIN_TEMPERATURE` environment value parses to `v`, then a
successful configuration load stores minimum temperature 21 when `v < 21`
(clamping up), and exactly `v` when `v ≥ 21` (kept unchanged). -/
theorem min_temperature_clamped (dotenvOk : Bool) (env : String → String)
    (generatedClientID : String) (cfg : Config) (v : ℤ)
    (henv : goAtoi (env "MIN_TEMPERATURE") = some v)
    (hok : Load dotenvOk env generatedClientID = Except.ok cfg) :
    (v < 21 → cfg.MinTemperature = 21) ∧ (21 ≤ v → cfg.MinTemperature = v) := by
  have hne : env "MIN_TEMPERATURE" ≠ "" := by
    intro hemp
    rw [hemp, show goAtoi "" = none from rfl] at henv
    exact Option.noConfusion henv
  have hmin : cfg.MinTemperature = if v < 21 then 21 else v := by
    unfold Load at hok
    by_cases hd : dotenvOk = false
    · rw [if_pos hd] at hok; exact absurd hok (by simp)
    · rw [if_neg hd] at hok
      by_cases hp : env "THINQ_PAT" = ""
      · rw [if_pos hp] at hok; exact absurd hok (by simp)
      · rw [if_neg hp] at hok
        have hcfg := Except.ok.inj hok
        rw [← hcfg]
        simp [loadMinTemperature, hne, henv]
  constructor
  · intro h; rw [hmin, if_pos h]
  · intro h; rw [hmin, if_neg (not_lt.mpr h)]

/-- C5 witness: `MIN_TEMPERATURE=18` loads as minimum temperature 21. -/
theorem min_temperature_clamped_witness :
    ({ ThinQPAT := "token", CountryCode := "BR", ClientID := "gen-id",
       MinTemperature := 21 } : Config).MinTemperature = 21 :=
  (min_temperature_clamped true envLow "gen-id"
    { ThinQPAT := "token", CountryCode := "BR", ClientID := "gen-id",
      MinTemperature := 21 } 18 (by rfl) (by rfl)).1 (by decide)

/-- The loaded minimum temperature is never below 21. -/
theorem loadMinTemperature_ge (s : String) : 21 ≤ loadMinTemperature s := by
  unfold loadMinTemperature
  by_cases hs : s = ""
  · simp [hs]
  · rcases hg : goAtoi s with _ | v
    · simp [hs, hg]
    · simp [hs, hg]
      split <;> omega

/-- An unparseable (or empty) `MIN_TEMPERATURE` value yields the default 21. -/
theorem loadMinTemperature_of_unparseable (s : String) (h : goAtoi s = none) :
    loadMinTemperature s = 21 := by
  simp [loadMinTemperature, h]

/-- C10. Configuration loading never fails because of the minimum-temperature
setting: whenever the `.env` file loads and `THINQ_PAT` is set, `Load`
succeeds regardless of `MIN_TEMPERATURE`; every successfully loaded
configuration satisfies `MinTemperature ≥ 21`; and when the
`MIN_TEMPERATURE` value does not parse as an integer, the default 21 is
silently used. -/
theorem load_min_temperature_total (dotenvOk : Bool) (env : String → String)
    (generatedClientID : String)
    (h : dotenvOk = true ∧ env "THINQ_PAT" ≠ "") :
    ∃ cfg, Load dotenvOk env generatedClientID = Except.ok cfg ∧
      21 ≤ cfg.MinTemperature ∧
      (goAtoi (env "MIN_TEMPERATURE") = none → cfg.MinTemperature = 21) := by
  obtain ⟨h1, h2⟩ := h
  subst h1
  refine ⟨{ ThinQPAT := env "THINQ_PAT"
            CountryCode :=
              if env "THINQ_COUNTRY_CODE" = "" then "BR"
              else env "THINQ_COUNTRY_CODE"
            ClientID :=
              if env "THINQ_CLIENT_ID" = "" then generatedClientID
              else env "THINQ_CLIENT_ID"
            MinTemperature := loadMinTemperature (env "MIN_TEMPERATURE") },
      ?_, ?_, ?_⟩
  · unfold Load
    rw [if_neg (by simp), if_neg h2]
  · exact loadMinTemperature_ge _
  · exact loadMinTemperature_of_unparseable _

/-- C10 witness: `MIN_TEMPERATURE=abc` still loads, with the default 21. -/
theorem load_min_temperature_total_witness :
    ∃ cfg, Load true envBad "gen-id" = Except.ok cfg ∧
      21 ≤ cfg.MinTemperature ∧
      (goAtoi (envBad "MIN_TEMPERATURE") = none → cfg.MinTemperature = 21) :=
  load_min_temperature_total true envBad "gen-id" ⟨rfl, by decide⟩

/-- C9. Identity acquisition signs a CSR whose subject common name is the
vendor's fixed value `"lg_thinq"` with the freshly generated RSA key, and on
success returns exactly the signed certificate PEM from the certificate
exchange, the private-key PEM of the fresh key, and the subscription topic
list from the exchange. -/
theorem identity_acquisition (freshKey : RSAPrivateKey) (clientID : String)
    (registerStatus : ℕ) (registerBody : String)
    (certStatus : ℕ) (certRawBody : String)
    (certParsedBody : Option CertificateResponse) (creds : MQTTCredentials)
    (h : GetMQTTCredentials registerStatus registerBody freshKey clientID
          certStatus certRawBody certParsedBody = Except.ok creds) :
    (generateCSR freshKey clientID).1 = PEMData.rsaPrivateKey freshKey ∧
    (∃ template signer,
      (generateCSR freshKey clientID).2 = PEMData.certificateRequest template signer ∧
      template.Subject.CommonName = "lg_thinq" ∧ signer = freshKey) ∧
    ∃ certResp, certParsedBody = some certResp ∧
      creds.Certificate = certResp.Response.Result.CertificatePem ∧
      creds.PrivateKey = PEMData.rsaPrivateKey freshKey ∧
      creds.Subscriptions = certResp.Response.Result.Subscriptions := by
  refine ⟨rfl, ⟨_, _, rfl, rfl, rfl⟩, ?_⟩
  unfold GetMQTTCredentials at h
  rcases hr : registerClient registerStatus registerBody with e | u
  · rw [hr] at h; simp at h
  · rw [hr] at h
    by_cases hc : certStatus = 200
    · simp only [hc] at h
      norm_num at h
      rcases hb : certParsedBody with _ | certResp
      · rw [hb] at h; simp at h
      · rw [hb] at h
        simp only [Except.ok.injEq] at h
        refine ⟨certResp, rfl, ?_⟩
        subst h
        exact ⟨rfl, rfl, rfl⟩
    · simp [hc] at h

/-- C9 witness: a successful run returns the certificate from the response,
the fresh key's PEM, and the response's subscription topics. -/
theorem identity_acquisition_witness :
    (generateCSR ⟨0⟩ "client-1").1 = PEMData.rsaPrivateKey ⟨0⟩ ∧
    (∃ template signer,
      (generateCSR ⟨0⟩ "client-1").2 = PEMData.certificateRequest template signer ∧
      template.Subject.CommonName = "lg_thinq" ∧ signer = ⟨0⟩) ∧
    ∃ certResp, some certRespW = some certResp ∧
      ({ Certificate := "CERTPEM", PrivateKey := PEMData.rsaPrivateKey ⟨0⟩,
         Subscriptions := ["t1", "t2"] } : MQTTCredentials).Certificate
        = certResp.Response.Result.CertificatePem ∧
      ({ Certificate := "CERTPEM", PrivateKey := PEMData.rsaPrivateKey ⟨0⟩,
         Subscriptions := ["t1", "t2"] } : MQTTCredentials).PrivateKey
        = PEMData.rsaPrivateKey ⟨0⟩ ∧
      ({ Certificate := "CERTPEM", PrivateKey := PEMData.rsaPrivateKey ⟨0⟩,
         Subscriptions := ["t1", "t2"] } : MQTTCredentials).Subscriptions
        = certResp.Response.Result.Subscriptions :=
  identity_acquisition ⟨0⟩ "client-1" 200 "" 200 "" (some certRespW)
    { Certificate := "CERTPEM", PrivateKey := PEMData.rsaPrivateKey ⟨0⟩,
      Subscriptions := ["t1", "t2"] } (by rfl)
